import Mathlib

/-!
Shallow embedding of the student-level data-cleaning pipeline
(`DU_IRA_Assessment_Cleaning_Code_Paul_Martinez.py`).

Missing values (pandas `NaN`) of a text column are modelled as `Option String`
(`none` = missing, `pd.notna` = `Option.isSome`).  Grade points and means are
modelled over `ℚ` (the exact rational arithmetic the grade-point mean denotes).
-/

namespace DUClean

/-! ### Character-level string operations
Kernel-computable `String.data`-based models of the Python `str` methods the
code relies on (`strip`, `upper`, `lower`, `startswith`, `split`, ordering).
-/

/-- Python `str.strip()` whitespace set (the ASCII part). -/
def pySpace (c : Char) : Bool :=
  c = ' ' || c = '\t' || c = '\n' || c = '\r' || c = '\x0b' || c = '\x0c'

/-- Python `str.strip()`. -/
def pyStrip (s : String) : String :=
  ⟨((s.data.dropWhile pySpace).reverse.dropWhile pySpace).reverse⟩

/-- ASCII uppercase of one character. -/
def upperChar (c : Char) : Char :=
  if 'a' ≤ c ∧ c ≤ 'z' then Char.ofNat (c.toNat - 32) else c

/-- Python `str.upper()`. -/
def pyUpper (s : String) : String :=
  ⟨s.data.map upperChar⟩

/-- ASCII lowercase of one character. -/
def lowerChar (c : Char) : Char :=
  if 'A' ≤ c ∧ c ≤ 'Z' then Char.ofNat (c.toNat + 32) else c

/-- Python `str.lower()`. -/
def pyLower (s : String) : String :=
  ⟨s.data.map lowerChar⟩

/-- One character list is an initial segment of another. -/
def listStartsWith : List Char → List Char → Bool
  | [], _ => true
  | _ :: _, [] => false
  | p :: ps, c :: cs => p == c && listStartsWith ps cs

/-- Python `s.startswith(pre)`. -/
def pyStartsWith (s pre : String) : Bool :=
  listStartsWith pre.data s.data

/-- Python `s.split(sep)` for a one-character separator. -/
def splitOnChar (sep : Char) : List Char → List (List Char)
  | [] => [[]]
  | c :: cs =>
    if c = sep then [] :: splitOnChar sep cs
    else
      match splitOnChar sep cs with
      | [] => [[c]]
      | r :: rs => (c :: r) :: rs

/-- Lexicographic comparison of character lists (Python string `<`). -/
def charListLt : List Char → List Char → Bool
  | [], [] => false
  | [], _ :: _ => true
  | _ :: _, [] => false
  | a :: as, b :: bs => decide (a < b) || (a == b && charListLt as bs)

/-- Python string `<`. -/
def strLt (a b : String) : Bool :=
  charListLt a.data b.data

/-- Python string `≤`. -/
def strLe (a b : String) : Bool :=
  strLt a b || a == b

/-- Python `s[-2:]`: the last two characters. -/
def lastTwo (s : String) : String :=
  ⟨s.data.drop (s.data.length - 2)⟩

/-- `l` consists of decimal digits only. -/
def allDigits (l : List Char) : Bool :=
  l.all Char.isDigit

/-! ### Step 5f — race/ethnicity derivation (`_race_ethnicity_du`) -/

/-- `NON_INTL_VISA_TYPES = {"PR", "RF", "AS"}` (line 206). -/
def NON_INTL_VISA_TYPES : List String := ["PR", "RF", "AS"]

/-- The WK3-preferring resolution of lines 210-212:
`x_raw = row.get(x_w3) if pd.notna(row.get(x_w3)) else row.get(x_end)`.
The early value is taken whenever it is present (`notna`), blank or not. -/
def resolveW3 (w3v endv : Option String) : Option String :=
  if w3v.isSome then w3v else endv

/-- Cleaning of the resolved visa (line 215): trim and uppercase when present
and non-blank, otherwise the empty string. -/
def cleanUpper (o : Option String) : String :=
  match o with
  | some s => if pyStrip s ≠ "" then pyUpper (pyStrip s) else ""
  | none => ""

/-- Cleaning of the resolved ethnicity/race (lines 216-217): trim when present
and non-blank, otherwise the empty string. -/
def cleanKeep (o : Option String) : String :=
  match o with
  | some s => if pyStrip s ≠ "" then pyStrip s else ""
  | none => ""

/-- Merged student-term row (output of the WK3/EOT outer merge, line 184):
both snapshots' attributes side by side, every field possibly missing. -/
structure STRow where
  id : String
  term_code : String
  majr_w3 : Option String
  degr_w3 : Option String
  college_w3 : Option String
  PROGRAM_w3 : Option String
  race_desc_w3 : Option String
  ethn_desc_w3 : Option String
  visa_desc_w3 : Option String
  legal_sex_desc_w3 : Option String
  birth_date_w3 : Option String
  majr_end : Option String
  degr_end : Option String
  college_end : Option String
  PROGRAM_end : Option String
  race_desc_end : Option String
  ethn_desc_end : Option String
  visa_desc_end : Option String
  legal_sex_desc_end : Option String
  birth_date_end : Option String
  deriving DecidableEq

/-- `_race_ethnicity_du` (lines 208-228): visa precedence, then ethnicity,
then race, else `"Unknown"`. -/
def raceEthnicityDU (r : STRow) : String :=
  let visa := cleanUpper (resolveW3 r.visa_desc_w3 r.visa_desc_end)
  let ethn := cleanKeep (resolveW3 r.ethn_desc_w3 r.ethn_desc_end)
  let race := cleanKeep (resolveW3 r.race_desc_w3 r.race_desc_end)
  if visa ≠ "" ∧ visa ∉ NON_INTL_VISA_TYPES then "International"
  else if pyLower ethn = "hispanic or latino" then "Hispanic or Latino"
  else if race ≠ "" then race else "Unknown"

/-- The resolution rule as the spec words it (prefer the early value only when
it is present AND non-blank, else the end value); written for comparison with
`resolveW3`, which is what the code does. -/
def specResolveW3 (w3v endv : Option String) : Option String :=
  match w3v with
  | some s => if pyStrip s ≠ "" then some s else endv
  | none => endv

/-! ### Step 5e — age (`_asof_from_term`, `_age_years`) -/

/-- A calendar date; `pd.Timestamp` at day precision. -/
structure Date where
  year : Nat
  month : Nat
  day : Nat
  deriving DecidableEq

/-- Value of a decimal-digit character list. -/
def digitsToNat (l : List Char) : Nat :=
  l.foldl (fun a c => a * 10 + (c.toNat - 48)) 0

/-- Python `int()` on a short text: strip surrounding whitespace, allow one
sign, then decimal digits only; anything else raises `ValueError` (`none`). -/
def pyInt (s : String) : Option Int :=
  match (pyStrip s).data with
  | '-' :: d => if d ≠ [] ∧ allDigits d then some (-(digitsToNat d : Int)) else none
  | '+' :: d => if d ≠ [] ∧ allDigits d then some ((digitsToNat d : Int)) else none
  | d => if d ≠ [] ∧ allDigits d then some ((digitsToNat d : Int)) else none

/-- `_TERM_ASOF_MONTH = {10: 10, 70: 10, 20: 3, 30: 7, 40: 7, 50: 7}`
(line 235). -/
def _TERM_ASOF_MONTH : List (Int × Nat) :=
  [(10, 10), (70, 10), (20, 3), (30, 7), (40, 7), (50, 7)]

/-- `_TERM_ASOF_MONTH.get(suff, 10)` — default October for an unknown
integer suffix (line 245). -/
def termAsofMonth (suff : Int) : Nat :=
  ((_TERM_ASOF_MONTH.find? (fun p => decide (p.1 = suff))).map Prod.snd).getD 10

/-- Python `str.isdigit` on one character.  Unlike `int()`, it also accepts
digit characters of Unicode category No, such as the superscript digits;
modelled on ASCII digits plus those superscripts. -/
def pyIsdigitChar (c : Char) : Bool :=
  c.isDigit || c = '¹' || c = '²' || c = '³' || c = '⁰' || c = '⁴' || c = '⁵' ||
    c = '⁶' || c = '⁷' || c = '⁸' || c = '⁹'

/-- Outcome of a Python call: a returned value, or an uncaught exception that
aborts the run. -/
inductive PyResult (α : Type) where
  | ok : α → PyResult α
  | raise : PyResult α
  deriving DecidableEq

/-- `_asof_from_term` (lines 237-247).  The guard is
`len(s) >= 6 and s[:4].isdigit()` with Python's Unicode `isdigit`; then
`year = int(s[:4])` runs OUTSIDE the `try` block, so it raises an uncaught
`ValueError` when the guard passed on digit characters `int()` rejects
(e.g. superscripts).  Only `int(s[-2:])` is guarded (`ValueError` → `NaT`).
`pd.Timestamp(year=year, month=month, day=1)` is also outside the `try` and
raises for an out-of-range year; modelled at `datetime`'s lower bound
(`year ≥ 1`, so the four-digit year `0000` raises — the narrower
nanosecond-era bounds of some pandas versions are not modelled).  An
uncaught raise is `PyResult.raise`; `pd.NaT` is `PyResult.ok none`. -/
def _asof_from_term (term_code : String) : PyResult (Option Date) :=
  if term_code.length ≥ 6 ∧ (term_code.data.take 4).all pyIsdigitChar then
    if allDigits (term_code.data.take 4) then
      match pyInt (lastTwo term_code) with
      | some suff =>
        if 1 ≤ digitsToNat (term_code.data.take 4) then
          PyResult.ok (some ⟨digitsToNat (term_code.data.take 4), termAsofMonth suff, 1⟩)
        else PyResult.raise
      | none => PyResult.ok none
    else PyResult.raise
  else PyResult.ok none

/-- Gregorian leap year. -/
def isLeap (y : Nat) : Bool :=
  (y % 4 = 0 && y % 100 ≠ 0) || y % 400 = 0

/-- Days in a month of a given year. -/
def daysInMonth (y m : Nat) : Nat :=
  if m = 2 then (if isLeap y then 29 else 28)
  else if m = 4 ∨ m = 6 ∨ m = 9 ∨ m = 11 then 30
  else 31

/-- The ISO `YYYY-MM-DD` restriction of `pd.to_datetime(s, errors="coerce")`
(the birth-date format of the dataset).  The pandas parser accepts further
formats, so the theorems below quantify over an arbitrary total coercing
parser `P`; `parseDate` only instantiates witnesses on inputs where the
pandas behaviour is unambiguous. -/
def parseDate (s : String) : Option Date :=
  match splitOnChar '-' (pyStrip s).data with
  | [ys, ms, ds] =>
    if ys.length = 4 ∧ allDigits ys ∧
       1 ≤ ms.length ∧ ms.length ≤ 2 ∧ allDigits ms ∧
       1 ≤ ds.length ∧ ds.length ≤ 2 ∧ allDigits ds then
      let y := digitsToNat ys
      let m := digitsToNat ms
      let d := digitsToNat ds
      if 1 ≤ m ∧ m ≤ 12 ∧ 1 ≤ d ∧ d ≤ daysInMonth y m then some ⟨y, m, d⟩
      else none
    else none
  | _ => none

/-- `_age_years` (lines 249-259): prefer the WK3 birth date when present
(`pd.notna`), parse it with `pd.to_datetime(·, errors="coerce")` — abstracted
as the total parser `P`, since coercing parsing never raises — build the
as-of date from the term code (a raise there propagates and aborts the run),
and return the integer age, decrementing when the as-of `(month, day)`
precedes the birth `(month, day)` lexicographically; missing on any parse
failure. -/
def _age_years (P : String → Option Date) (dob_w3 dob_end : Option String)
    (term_code : String) : PyResult (Option Int) :=
  let dob := if dob_w3.isSome then dob_w3 else dob_end
  match _asof_from_term term_code with
  | PyResult.raise => PyResult.raise
  | PyResult.ok asofOpt =>
    match dob.bind P, asofOpt with
    | some dt, some asof =>
      let years : Int := (asof.year : Int) - (dt.year : Int)
      if asof.month < dt.month ∨ (asof.month = dt.month ∧ asof.day < dt.day) then
        PyResult.ok (some (years - 1))
      else PyResult.ok (some years)
    | _, _ => PyResult.ok none

/-! ### Step 5a — term GPA (`GRADE_POINTS`, `grades_gpa`, `term_gpa`) -/

/-- A row of the grades table (join keys already trimmed text, Step 3). -/
structure GradeRow where
  id : String
  term_code : String
  final_course_grade : String
  deriving DecidableEq

/-- `GRADE_POINTS` (lines 142-147), as a lookup. -/
def GRADE_POINTS (g : String) : Option ℚ :=
  if g = "A" then some 4
  else if g = "A-" then some (37 / 10)
  else if g = "B+" then some (33 / 10)
  else if g = "B" then some 3
  else if g = "B-" then some (27 / 10)
  else if g = "C+" then some (23 / 10)
  else if g = "C" then some 2
  else if g = "C-" then some (17 / 10)
  else if g = "D+" then some (13 / 10)
  else if g = "D" then some 1
  else if g = "F" then some 0
  else none

/-- A grade row survives the `map` + `dropna` filter (lines 149-151) iff its
grade, trimmed (`astype(str).str.strip()`), is a key of `GRADE_POINTS`. -/
def contributes (r : GradeRow) : Bool :=
  (GRADE_POINTS (pyStrip r.final_course_grade)).isSome

/-- The mapped points of a contributing row. -/
def gradePointsOf (r : GradeRow) : ℚ :=
  (GRADE_POINTS (pyStrip r.final_course_grade)).getD 0

/-- The rows of `grades_gpa` belonging to the group `(i, tc)`. -/
def contribRows (rows : List GradeRow) (i tc : String) : List GradeRow :=
  rows.filter (fun r => decide (r.id = i) && decide (r.term_code = tc) && contributes r)

/-- The `term_gpa` aggregation (lines 153-157) read as a per-key query:
`groupby` emits a row for `(i, tc)` only when the group is non-empty, with
the mean of the mapped points and the post-filter row count. -/
def term_gpa (rows : List GradeRow) (i tc : String) : Option (ℚ × Nat) :=
  let cs := contribRows rows i tc
  if cs.isEmpty then none
  else some ((cs.map gradePointsOf).sum / (cs.length : ℚ), cs.length)

/-! ### Step 5c — flags and attribute resolution (lines 186-203) -/

/-- `enrolled_w3` (line 186): any of the WK3 major/degree/college present. -/
def enrolled_w3 (r : STRow) : Bool :=
  r.majr_w3.isSome || r.degr_w3.isSome || r.college_w3.isSome

/-- `enrolled_end` (line 187). -/
def enrolled_end (r : STRow) : Bool :=
  r.majr_end.isSome || r.degr_end.isSome || r.college_end.isSome

/-- `persisted_w3_to_end` (line 188). -/
def persisted_w3_to_end (r : STRow) : Bool :=
  enrolled_w3 r && enrolled_end r

/-- `fillna("").str.upper().str.startswith("UN")` on a major column. -/
def startsUN (o : Option String) : Bool :=
  pyStartsWith (pyUpper (o.getD "")) "UN"

/-- `undeclared_to_declared` (lines 191-195). -/
def undeclared_to_declared (r : STRow) : Bool :=
  persisted_w3_to_end r && startsUN r.majr_w3 && !startsUN r.majr_end

/-- Resolved `PROGRAM` (line 198): `np.where(enrolled_end, end, w3)`. -/
def resolvedPROGRAM (r : STRow) : Option String :=
  if enrolled_end r then r.PROGRAM_end else r.PROGRAM_w3

/-- Resolved `degree` (line 199). -/
def resolvedDegree (r : STRow) : Option String :=
  if enrolled_end r then r.degr_end else r.degr_w3

/-- Resolved `major` (line 200). -/
def resolvedMajor (r : STRow) : Option String :=
  if enrolled_end r then r.majr_end else r.majr_w3

/-- Resolved `college` (line 201). -/
def resolvedCollege (r : STRow) : Option String :=
  if enrolled_end r then r.college_end else r.college_w3

/-- Resolved `gender` (lines 202-203): end legal sex when present. -/
def resolvedGender (r : STRow) : Option String :=
  if r.legal_sex_desc_end.isSome then r.legal_sex_desc_end else r.legal_sex_desc_w3

/-! ### Step 5b/5c — census split, per-key dedupe, outer merge
(lines 161-184) -/

/-- A row of `df_final` as consumed by the splitter: its census tag, the
composite key, and the snapshot attribute columns kept by the split. -/
structure CensusRow where
  census : Option String
  id : String
  term_code : String
  majr : Option String
  degr : Option String
  college : Option String
  PROGRAM : Option String
  race_desc : Option String
  ethn_desc : Option String
  visa_desc : Option String
  legal_sex_desc : Option String
  birth_date : Option String
  deriving DecidableEq

/-- The composite key `(id, term_code)`. -/
def rowKey (r : CensusRow) : String × String :=
  (r.id, r.term_code)

/-- Ordering used by `sort_values(["id", "term_code"])`. -/
def keyLE (a b : CensusRow) : Bool :=
  strLt a.id b.id || (a.id == b.id && strLe a.term_code b.term_code)

/-- Ordered insertion for `sortByKey`. -/
def insertByKey (r : CensusRow) : List CensusRow → List CensusRow
  | [] => [r]
  | x :: xs => if keyLE r x then r :: x :: xs else x :: insertByKey r xs

/-- `sort_values(["id", "term_code"])` as an insertion sort. -/
def sortByKey : List CensusRow → List CensusRow
  | [] => []
  | x :: xs => insertByKey x (sortByKey xs)

/-- `drop_duplicates(keep="first")` on a key: keep the first row of each key,
removing every later row with the same key.  (Filtering the deduplicated tail
is equivalent to filtering the tail first, and keeps the recursion
structural.) -/
def dedupeByKey {α κ : Type} [DecidableEq κ] (key : α → κ) : List α → List α
  | [] => []
  | x :: xs => x :: (dedupeByKey key xs).filter (fun y => decide (key y ≠ key x))

/-- The WK3 frame `w3` (lines 161-170): filter on the tag, sort, dedupe. -/
def w3Frame (input : List CensusRow) : List CensusRow :=
  dedupeByKey rowKey (sortByKey (input.filter (fun r => decide (r.census = some "WK3"))))

/-- The EOT frame `end` (lines 172-181). -/
def endFrame (input : List CensusRow) : List CensusRow :=
  dedupeByKey rowKey (sortByKey (input.filter (fun r => decide (r.census = some "EOT"))))

/-- First row of a frame carrying a key. -/
def lookupKey (l : List CensusRow) (k : String × String) : Option CensusRow :=
  l.find? (fun r => decide (rowKey r = k))

/-- Assemble one merged row from the two sides' rows for a key; an absent
side contributes all-missing fields. -/
def mkMerged (k : String × String) (w e : Option CensusRow) : STRow where
  id := k.1
  term_code := k.2
  majr_w3 := w.bind CensusRow.majr
  degr_w3 := w.bind CensusRow.degr
  college_w3 := w.bind CensusRow.college
  PROGRAM_w3 := w.bind CensusRow.PROGRAM
  race_desc_w3 := w.bind CensusRow.race_desc
  ethn_desc_w3 := w.bind CensusRow.ethn_desc
  visa_desc_w3 := w.bind CensusRow.visa_desc
  legal_sex_desc_w3 := w.bind CensusRow.legal_sex_desc
  birth_date_w3 := w.bind CensusRow.birth_date
  majr_end := e.bind CensusRow.majr
  degr_end := e.bind CensusRow.degr
  college_end := e.bind CensusRow.college
  PROGRAM_end := e.bind CensusRow.PROGRAM
  race_desc_end := e.bind CensusRow.race_desc
  ethn_desc_end := e.bind CensusRow.ethn_desc
  visa_desc_end := e.bind CensusRow.visa_desc
  legal_sex_desc_end := e.bind CensusRow.legal_sex_desc
  birth_date_end := e.bind CensusRow.birth_date

/-- Key list of the outer merge: every WK3 key, then every EOT-only key
(`pd.merge(..., how="outer")` on the two deduplicated frames). -/
def mergeKeys (input : List CensusRow) : List (String × String) :=
  let wk := (w3Frame input).map rowKey
  let ek := (endFrame input).map rowKey
  wk ++ ek.filter (fun k => decide (k ∉ wk))

/-- `student_term` (line 184): one merged row per key of either frame. -/
def student_term (input : List CensusRow) : List STRow :=
  (mergeKeys input).map
    (fun k => mkMerged k (lookupKey (w3Frame input) k) (lookupKey (endFrame input) k))

/-- The key of a merged row. -/
def stKey (r : STRow) : String × String :=
  (r.id, r.term_code)

/-- All WK3-side fields of a merged row are missing. -/
def w3FieldsNone (r : STRow) : Prop :=
  r.majr_w3 = none ∧ r.degr_w3 = none ∧ r.college_w3 = none ∧ r.PROGRAM_w3 = none ∧
  r.race_desc_w3 = none ∧ r.ethn_desc_w3 = none ∧ r.visa_desc_w3 = none ∧
  r.legal_sex_desc_w3 = none ∧ r.birth_date_w3 = none

/-- All EOT-side fields of a merged row are missing. -/
def endFieldsNone (r : STRow) : Prop :=
  r.majr_end = none ∧ r.degr_end = none ∧ r.college_end = none ∧ r.PROGRAM_end = none ∧
  r.race_desc_end = none ∧ r.ethn_desc_end = none ∧ r.visa_desc_end = none ∧
  r.legal_sex_desc_end = none ∧ r.birth_date_end = none

/-! ### Step 6 — student-level export rows (lines 283-302) -/

/-- A row of `student_level`: the projected export columns. -/
structure SLRow where
  id : String
  term_code : String
  gender : Option String
  race_ethnicity : String
  age : Option Int
  college : Option String
  degree : Option String
  major : Option String
  program : Option String
  term_gpa : Option ℚ
  course_count : Option Nat
  persisted_w3_to_end : Bool
  undeclared_to_declared : Bool
  deriving DecidableEq

/-- The export key `(id, term_code)`. -/
def slKey (r : SLRow) : String × String :=
  (r.id, r.term_code)

/-- The exporter's dedupe (lines 298-302):
`drop_duplicates(subset=["id", "term_code"], keep="first")`.  The code runs it
under an `if dups.any()` guard; when no key repeats the call is the identity,
so the unconditional form is equivalent. -/
def student_level (l : List SLRow) : List SLRow :=
  dedupeByKey slKey l

/-! ### List lemmas about `dedupeByKey`, `sortByKey` and key counting -/

/-- ASCII digits are also Unicode `isdigit` digits. -/
theorem allDigits_pyIsdigit (l : List Char) (h : allDigits l = true) :
    l.all pyIsdigitChar = true := by
  rw [allDigits] at h
  rw [List.all_eq_true] at h ⊢
  intro c hc
  have hd := h c hc
  simp only [decide_eq_true_eq] at hd ⊢
  simp [pyIsdigitChar, hd]

theorem mem_of_mem_dedupeByKey {α κ : Type} [DecidableEq κ] (key : α → κ)
    (l : List α) (a : α) (h : a ∈ dedupeByKey key l) : a ∈ l := by
  induction l with
  | nil => simp [dedupeByKey] at h
  | cons x xs ih =>
    simp only [dedupeByKey, List.mem_cons] at h
    rcases h with h | h
    · simp [h]
    · exact List.mem_cons_of_mem _ (ih (List.mem_of_mem_filter h))

theorem exists_key_dedupeByKey {α κ : Type} [DecidableEq κ] (key : α → κ)
    (l : List α) (k : κ) :
    (∃ a ∈ dedupeByKey key l, key a = k) ↔ (∃ a ∈ l, key a = k) := by
  induction l with
  | nil => simp [dedupeByKey]
  | cons x xs ih =>
    constructor
    · rintro ⟨a, ha, hk⟩
      exact ⟨a, mem_of_mem_dedupeByKey key _ a ha, hk⟩
    · rintro ⟨a, ha, hk⟩
      by_cases hxk : key x = k
      · exact ⟨x, by simp [dedupeByKey], hxk⟩
      · rcases List.mem_cons.mp ha with h | h
        · exact absurd (h ▸ hk) hxk
        · obtain ⟨b, hb, hbk⟩ := ih.mpr ⟨a, h, hk⟩
          refine ⟨b, ?_, hbk⟩
          simp only [dedupeByKey, List.mem_cons]
          right
          refine List.mem_filter.mpr ⟨hb, ?_⟩
          simp only [decide_eq_true_eq]
          exact fun hc => hxk (hc ▸ hbk)

theorem pairwise_dedupeByKey {α κ : Type} [DecidableEq κ] (key : α → κ)
    (l : List α) :
    (dedupeByKey key l).Pairwise (fun a b => key a ≠ key b) := by
  induction l with
  | nil => simp [dedupeByKey]
  | cons x xs ih =>
    simp only [dedupeByKey]
    refine List.Pairwise.cons ?_ (List.Pairwise.filter _ ih)
    intro b hb
    have hfb := (List.mem_filter.mp hb).2
    simp only [decide_eq_true_eq] at hfb
    exact fun hxb => hfb hxb.symm

theorem nodup_keys_dedupeByKey {α κ : Type} [DecidableEq κ] (key : α → κ)
    (l : List α) : ((dedupeByKey key l).map key).Nodup := by
  rw [List.Nodup, List.pairwise_map]
  exact pairwise_dedupeByKey key l

theorem mem_dedupeByKey_iff_find? {α κ : Type} [DecidableEq κ] (key : α → κ)
    (l : List α) (a : α) :
    a ∈ dedupeByKey key l ↔ l.find? (fun x => decide (key x = key a)) = some a := by
  induction l with
  | nil => simp [dedupeByKey]
  | cons x xs ih =>
    by_cases hx : key x = key a
    · rw [List.find?_cons_of_pos _ (by simpa using hx)]
      simp only [dedupeByKey, List.mem_cons, Option.some.injEq]
      constructor
      · rintro (h | h)
        · exact h.symm
        · have hfa := (List.mem_filter.mp h).2
          simp only [decide_eq_true_eq] at hfa
          exact absurd hx.symm hfa
      · intro h
        exact Or.inl h.symm
    · rw [List.find?_cons_of_neg _ (by simpa using hx)]
      rw [← ih]
      simp only [dedupeByKey, List.mem_cons]
      have hne : a ≠ x := fun h => hx (congrArg key h.symm)
      constructor
      · rintro (h | h)
        · exact absurd h hne
        · exact (List.mem_filter.mp h).1
      · intro h
        right
        refine List.mem_filter.mpr ⟨h, ?_⟩
        simp only [decide_eq_true_eq]
        exact fun hc => hx hc.symm

theorem countP_key_dedupeByKey {α κ : Type} [DecidableEq κ] (key : α → κ)
    (l : List α) (k : κ) :
    (dedupeByKey key l).countP (fun a => decide (key a = k)) =
      if ∃ a ∈ l, key a = k then 1 else 0 := by
  induction l with
  | nil => simp [dedupeByKey]
  | cons x xs ih =>
    simp only [dedupeByKey, List.countP_cons]
    by_cases hx : key x = k
    · have hzero : ((dedupeByKey key xs).filter
          (fun y => decide (key y ≠ key x))).countP (fun a => decide (key a = k)) = 0 := by
        rw [List.countP_eq_zero]
        intro a ha
        have hfa := (List.mem_filter.mp ha).2
        simp only [decide_eq_true_eq] at hfa ⊢
        exact fun hk => hfa (hk.trans hx.symm)
      rw [hzero, if_pos (show ∃ a ∈ x :: xs, key a = k from
        ⟨x, List.mem_cons_self x xs, hx⟩)]
      simp [hx]
    · have heq : ((dedupeByKey key xs).filter
          (fun y => decide (key y ≠ key x))).countP (fun a => decide (key a = k)) =
          (dedupeByKey key xs).countP (fun a => decide (key a = k)) := by
        rw [List.countP_filter]
        congr 1
        funext a
        by_cases hak : key a = k
        · have hne : key a ≠ key x := fun hc => hx (hc ▸ hak)
          simp [hak, hne, Ne.symm hx]
        · simp [hak]
      rw [heq, ih]
      have hiff : (∃ a ∈ xs, key a = k) ↔ (∃ a ∈ x :: xs, key a = k) := by
        constructor
        · rintro ⟨a, ha, hk⟩
          exact ⟨a, List.mem_cons_of_mem _ ha, hk⟩
        · rintro ⟨a, ha, hk⟩
          rcases List.mem_cons.mp ha with h | h
          · exact absurd (h ▸ hk) hx
          · exact ⟨a, h, hk⟩
      rw [if_congr hiff rfl rfl]
      simp [hx]

theorem mem_insertByKey (r a : CensusRow) :
    ∀ l : List CensusRow, a ∈ insertByKey r l ↔ a = r ∨ a ∈ l := by
  intro l
  induction l with
  | nil => simp [insertByKey]
  | cons x xs ih =>
    by_cases h : keyLE r x = true
    · simp [insertByKey, h]
    · simp only [insertByKey, if_neg h, List.mem_cons, ih]
      tauto

theorem mem_sortByKey (a : CensusRow) :
    ∀ l : List CensusRow, a ∈ sortByKey l ↔ a ∈ l := by
  intro l
  induction l with
  | nil => simp [sortByKey]
  | cons x xs ih =>
    simp only [sortByKey, mem_insertByKey, ih, List.mem_cons]

theorem countP_key_eq {κ : Type} [DecidableEq κ] (k : κ) :
    ∀ u : List κ, u.Nodup →
      u.countP (fun x => decide (x = k)) = if k ∈ u then 1 else 0 := by
  intro u
  induction u with
  | nil => simp
  | cons a u ih =>
    intro hn
    rw [List.nodup_cons] at hn
    rw [List.countP_cons]
    by_cases ha : a = k
    · subst ha
      have hz : u.countP (fun x => decide (x = a)) = 0 := by
        rw [List.countP_eq_zero]
        intro b hb
        simp only [decide_eq_true_eq]
        exact fun hbk => hn.1 (hbk ▸ hb)
      simp [hz]
    · rw [ih hn.2]
      simp [List.mem_cons, ha, Ne.symm ha]

theorem countP_outerKeys (u v : List (String × String))
    (hu : u.Nodup) (hv : v.Nodup) (k : String × String) :
    (u ++ v.filter (fun x => decide (x ∉ u))).countP (fun x => decide (x = k)) =
      if k ∈ u ∨ k ∈ v then 1 else 0 := by
  rw [List.countP_append]
  by_cases hk : k ∈ u
  · rw [countP_key_eq k u hu, if_pos hk, if_pos (Or.inl hk)]
    have hz : (v.filter (fun x => decide (x ∉ u))).countP (fun x => decide (x = k)) = 0 := by
      rw [List.countP_eq_zero]
      intro a ha
      simp only [decide_eq_true_eq]
      intro hak
      have := (List.mem_filter.mp ha).2
      simp only [decide_eq_true_eq] at this
      exact this (hak ▸ hk)
    rw [hz]
  · rw [countP_key_eq k u hu, if_neg hk]
    have heq : (v.filter (fun x => decide (x ∉ u))).countP (fun x => decide (x = k)) =
        v.countP (fun x => decide (x = k)) := by
      rw [List.countP_filter]
      congr 1
      funext a
      by_cases hak : a = k
      · subst hak
        simp [hk]
      · simp [hak]
    rw [heq, countP_key_eq k v hv]
    by_cases hkv : k ∈ v
    · simp [hkv, hk]
    · simp [hkv, hk]

/-! ### Frame-level lemmas (shared shape of `w3Frame` and `endFrame`) -/

theorem mem_tagFrame (tag : String) (input : List CensusRow) (r : CensusRow)
    (h : r ∈ dedupeByKey rowKey
      (sortByKey (input.filter (fun x => decide (x.census = some tag))))) :
    r.census = some tag ∧ r ∈ input := by
  have h1 := mem_of_mem_dedupeByKey rowKey _ r h
  have h2 := (mem_sortByKey r _).mp h1
  have h3 := List.mem_filter.mp h2
  exact ⟨by simpa using h3.2, h3.1⟩

theorem exists_key_tagFrame (tag : String) (input : List CensusRow) (k : String × String) :
    (∃ r ∈ dedupeByKey rowKey
        (sortByKey (input.filter (fun x => decide (x.census = some tag)))), rowKey r = k) ↔
      ∃ r ∈ input, r.census = some tag ∧ rowKey r = k := by
  rw [exists_key_dedupeByKey]
  constructor
  · rintro ⟨a, ha, hk⟩
    have h2 := (mem_sortByKey a _).mp ha
    have h3 := List.mem_filter.mp h2
    exact ⟨a, h3.1, by simpa using h3.2, hk⟩
  · rintro ⟨a, ha, hc, hk⟩
    refine ⟨a, (mem_sortByKey a _).mpr (List.mem_filter.mpr ⟨ha, by simpa using hc⟩), hk⟩

theorem mem_w3Keys_iff (input : List CensusRow) (k : String × String) :
    k ∈ (w3Frame input).map rowKey ↔
      ∃ r ∈ input, r.census = some "WK3" ∧ rowKey r = k := by
  rw [List.mem_map]
  constructor
  · rintro ⟨a, ha, hk⟩
    exact (exists_key_tagFrame "WK3" input k).mp ⟨a, ha, hk⟩
  · intro h
    obtain ⟨a, ha, hk⟩ := (exists_key_tagFrame "WK3" input k).mpr h
    exact ⟨a, ha, hk⟩

theorem mem_endKeys_iff (input : List CensusRow) (k : String × String) :
    k ∈ (endFrame input).map rowKey ↔
      ∃ r ∈ input, r.census = some "EOT" ∧ rowKey r = k := by
  rw [List.mem_map]
  constructor
  · rintro ⟨a, ha, hk⟩
    exact (exists_key_tagFrame "EOT" input k).mp ⟨a, ha, hk⟩
  · intro h
    obtain ⟨a, ha, hk⟩ := (exists_key_tagFrame "EOT" input k).mpr h
    exact ⟨a, ha, hk⟩

theorem lookupKey_w3_eq_none (input : List CensusRow) (k : String × String)
    (h : ¬ ∃ r ∈ input, r.census = some "WK3" ∧ rowKey r = k) :
    lookupKey (w3Frame input) k = none := by
  rw [lookupKey, List.find?_eq_none]
  intro a ha
  simp only [decide_eq_true_eq]
  intro hk
  have hm := mem_tagFrame "WK3" input a ha
  exact h ⟨a, hm.2, hm.1, hk⟩

theorem lookupKey_end_eq_none (input : List CensusRow) (k : String × String)
    (h : ¬ ∃ r ∈ input, r.census = some "EOT" ∧ rowKey r = k) :
    lookupKey (endFrame input) k = none := by
  rw [lookupKey, List.find?_eq_none]
  intro a ha
  simp only [decide_eq_true_eq]
  intro hk
  have hm := mem_tagFrame "EOT" input a ha
  exact h ⟨a, hm.2, hm.1, hk⟩

theorem stKey_mkMerged (k : String × String) (w e : Option CensusRow) :
    stKey (mkMerged k w e) = k := by
  simp [stKey, mkMerged]

theorem countP_key_mergeKeys (input : List CensusRow) (k : String × String) :
    (mergeKeys input).countP (fun x => decide (x = k)) =
      if k ∈ (w3Frame input).map rowKey ∨ k ∈ (endFrame input).map rowKey
      then 1 else 0 := by
  have hu : ((w3Frame input).map rowKey).Nodup := by
    unfold w3Frame
    exact nodup_keys_dedupeByKey rowKey _
  have hv : ((endFrame input).map rowKey).Nodup := by
    unfold endFrame
    exact nodup_keys_dedupeByKey rowKey _
  exact countP_outerKeys ((w3Frame input).map rowKey) ((endFrame input).map rowKey) hu hv k

/-! ### Claim theorems -/

/-- **C7**: the census splitter/merger partitions the joined rows into exactly
two frames by the expected tags (`"WK3"`, `"EOT"`), silently dropping rows with
any other or missing tag; deduplicates each frame to one row per
`(id, term_code)` (sort then keep first); and outer-joins the frames so every
key present in at least one snapshot yields exactly one merged row, whose
absent snapshot's fields are all missing when the key is in only one
snapshot. -/
theorem census_split_merge_correct (input : List CensusRow) (k : String × String) :
    ((student_term input).countP (fun m => decide (stKey m = k)) =
      if ∃ r ∈ input, (r.census = some "WK3" ∨ r.census = some "EOT") ∧ rowKey r = k
      then 1 else 0)
    ∧ (∀ m ∈ student_term input, stKey m = k →
        ((¬ ∃ r ∈ input, r.census = some "WK3" ∧ rowKey r = k) → w3FieldsNone m)
        ∧ ((¬ ∃ r ∈ input, r.census = some "EOT" ∧ rowKey r = k) → endFieldsNone m)) := by
  constructor
  · rw [student_term, List.countP_map]
    have hfun : ((fun m => decide (stKey m = k)) ∘
        (fun k' => mkMerged k' (lookupKey (w3Frame input) k')
          (lookupKey (endFrame input) k'))) = fun k' => decide (k' = k) := by
      funext k'
      simp only [Function.comp_apply, stKey_mkMerged]
    rw [hfun, countP_key_mergeKeys]
    have hiff : (k ∈ (w3Frame input).map rowKey ∨ k ∈ (endFrame input).map rowKey) ↔
        (∃ r ∈ input, (r.census = some "WK3" ∨ r.census = some "EOT") ∧ rowKey r = k) := by
      rw [mem_w3Keys_iff, mem_endKeys_iff]
      constructor
      · rintro (⟨r, hr, hc, hk⟩ | ⟨r, hr, hc, hk⟩)
        · exact ⟨r, hr, Or.inl hc, hk⟩
        · exact ⟨r, hr, Or.inr hc, hk⟩
      · rintro ⟨r, hr, hc | hc, hk⟩
        · exact Or.inl ⟨r, hr, hc, hk⟩
        · exact Or.inr ⟨r, hr, hc, hk⟩
    rw [if_congr hiff rfl rfl]
  · intro m hm hkm
    rw [student_term] at hm
    obtain ⟨k', hk', hmk⟩ := List.mem_map.mp hm
    subst hmk
    rw [stKey_mkMerged] at hkm
    subst hkm
    constructor
    · intro hno
      rw [lookupKey_w3_eq_none input k' hno]
      simp [mkMerged, w3FieldsNone]
    · intro hno
      rw [lookupKey_end_eq_none input k' hno]
      simp [mkMerged, endFieldsNone]

/-- A two-row input for the splitter: one WK3 row and one row with an
unexpected tag. -/
def exC7 : List CensusRow :=
  [⟨some "WK3", "S9", "202110", some "MATH", none, none, none, none, none, none, none, none⟩,
   ⟨some "XXX", "S8", "202110", some "ART", none, none, none, none, none, none, none, none⟩]

/-- The merged row the splitter/merger produces for `("S9", "202110")`. -/
def exC7row : STRow :=
  mkMerged ("S9", "202110")
    (some ⟨some "WK3", "S9", "202110", some "MATH", none, none, none, none, none, none, none, none⟩)
    none

/-- Witness for C7 at a concrete input: the WK3-only key yields exactly one
merged row whose EOT-side fields are all missing. -/
theorem census_split_merge_witness :
    (student_term exC7).countP (fun m => decide (stKey m = ("S9", "202110"))) = 1 ∧
    endFieldsNone exC7row := by
  constructor
  · rw [(census_split_merge_correct exC7 ("S9", "202110")).1, if_pos (by decide)]
  · exact ((census_split_merge_correct exC7 ("S9", "202110")).2 exC7row (by decide)
      (by decide)).2 (by decide)

/-- **C9**: the exported student-level table has at most one row per
`(id, term_code)`; a row of the output with a given key is exactly the first
occurrence of that key in the pre-export table's row order, so all later
occurrences are dropped. -/
theorem student_level_dedup_correct (l : List SLRow) (k : String × String) :
    ((student_level l).countP (fun r => decide (slKey r = k)) ≤ 1)
    ∧ (∀ r : SLRow, (r ∈ student_level l ∧ slKey r = k) ↔
        l.find? (fun x => decide (slKey x = k)) = some r) := by
  constructor
  · rw [student_level, countP_key_dedupeByKey slKey l k]
    split
    · exact Nat.le_refl 1
    · exact Nat.zero_le 1
  · intro r
    constructor
    · rintro ⟨hr, hk⟩
      rw [student_level] at hr
      have h := (mem_dedupeByKey_iff_find? slKey l r).mp hr
      rwa [hk] at h
    · intro hf
      have hk : slKey r = k := by
        have := List.find?_some hf
        simpa using this
      refine ⟨?_, hk⟩
      rw [student_level, mem_dedupeByKey_iff_find? slKey l r, hk]
      exact hf

/-- First pre-export row carrying the key `("S1", "202110")`. -/
def exC9a : SLRow :=
  ⟨"S1", "202110", some "F", "Unknown", none, none, none, none, none, none, none, false, false⟩

/-- Second pre-export row with the same key but a different gender. -/
def exC9b : SLRow :=
  ⟨"S1", "202110", some "M", "Unknown", none, none, none, none, none, none, none, false, false⟩

/-- Witness for C9 at a concrete input: of two rows sharing a key, exactly the
first survives the exporter's dedupe. -/
theorem student_level_dedup_witness :
    (student_level [exC9a, exC9b]).countP
      (fun r => decide (slKey r = ("S1", "202110"))) ≤ 1 ∧
    exC9a ∈ student_level [exC9a, exC9b] ∧
    ¬ exC9b ∈ student_level [exC9a, exC9b] := by
  refine ⟨(student_level_dedup_correct [exC9a, exC9b] ("S1", "202110")).1, ?_, ?_⟩
  · exact (((student_level_dedup_correct [exC9a, exC9b] ("S1", "202110")).2 exC9a).mpr
      (by decide)).1
  · intro hb
    have h := ((student_level_dedup_correct [exC9a, exC9b] ("S1", "202110")).2 exC9b).mp
      ⟨hb, by decide⟩
    exact absurd h (by decide)

/-- **C1**: the derived race/ethnicity category follows the strict precedence
chain over the resolved-and-cleaned visa, ethnicity and race: a non-blank
visa outside `{PR, RF, AS}` always yields `"International"`; otherwise (visa
blank/missing or in the set — so a blank visa never takes the International
branch) the category is `"Hispanic or Latino"` when the ethnicity
case-insensitively equals `"hispanic or latino"`, else the cleaned race text
verbatim when non-blank, else `"Unknown"`. -/
theorem race_ethnicity_precedence (r : STRow) :
    ((cleanUpper (resolveW3 r.visa_desc_w3 r.visa_desc_end) ≠ "" ∧
      cleanUpper (resolveW3 r.visa_desc_w3 r.visa_desc_end) ∉ NON_INTL_VISA_TYPES) →
      raceEthnicityDU r = "International")
    ∧ ((cleanUpper (resolveW3 r.visa_desc_w3 r.visa_desc_end) = "" ∨
        cleanUpper (resolveW3 r.visa_desc_w3 r.visa_desc_end) ∈ NON_INTL_VISA_TYPES) →
      raceEthnicityDU r =
        if pyLower (cleanKeep (resolveW3 r.ethn_desc_w3 r.ethn_desc_end)) =
            "hispanic or latino"
        then "Hispanic or Latino"
        else if cleanKeep (resolveW3 r.race_desc_w3 r.race_desc_end) ≠ ""
        then cleanKeep (resolveW3 r.race_desc_w3 r.race_desc_end)
        else "Unknown") := by
  constructor
  · intro h
    simp only [raceEthnicityDU]
    rw [if_pos h]
  · intro h
    have hneg : ¬ (cleanUpper (resolveW3 r.visa_desc_w3 r.visa_desc_end) ≠ "" ∧
        cleanUpper (resolveW3 r.visa_desc_w3 r.visa_desc_end) ∉ NON_INTL_VISA_TYPES) := by
      rcases h with h | h
      · exact fun hc => hc.1 h
      · exact fun hc => hc.2 h
    simp only [raceEthnicityDU]
    rw [if_neg hneg]

/-- Merged row with a WK3 visa `"F1"` and nothing else. -/
def exC1intl : STRow :=
  mkMerged ("S1", "202110")
    (some ⟨some "WK3", "S1", "202110", none, none, none, none, none, none,
      some "F1", none, none⟩)
    none

/-- Merged row with only a WK3 ethnicity `"Hispanic or Latino"`. -/
def exC1hisp : STRow :=
  mkMerged ("S2", "202110")
    (some ⟨some "WK3", "S2", "202110", none, none, none, none, none,
      some "Hispanic or Latino", none, none, none⟩)
    none

/-- Witness for C1 at concrete rows: an F1 visa is International; a blank
visa with Hispanic ethnicity is Hispanic or Latino. -/
theorem race_ethnicity_precedence_witness :
    raceEthnicityDU exC1intl = "International" ∧
    raceEthnicityDU exC1hisp = "Hispanic or Latino" := by
  constructor
  · exact (race_ethnicity_precedence exC1intl).1 (by decide)
  · rw [(race_ethnicity_precedence exC1hisp).2 (Or.inl (by decide))]
    decide

/-- Merged row whose WK3 visa is present but blank while the EOT visa is
`"F1"`; all other fields missing. -/
def exC2 : STRow :=
  mkMerged ("S3", "202110")
    (some ⟨some "WK3", "S3", "202110", none, none, none, none, none, none,
      some "  ", none, none⟩)
    (some ⟨some "EOT", "S3", "202110", none, none, none, none, none, none,
      some "F1", none, none⟩)

/-- **C2** counterexample: the code resolves each field to the early-term
value whenever that value is PRESENT, blank or not (`pd.notna` only); with an
early visa `"  "` (present but blank) and an end visa `"F1"`, the resolved
value is the blank early value — not `"F1"` as the claim states — so the
cleaned visa is empty and the row is NOT categorised International. -/
theorem resolve_blank_early_counterexample :
    resolveW3 (some "  ") (some "F1") = some "  " ∧
    specResolveW3 (some "  ") (some "F1") = some "F1" ∧
    cleanUpper (resolveW3 (some "  ") (some "F1")) = "" ∧
    raceEthnicityDU exC2 = "Unknown" := by
  refine ⟨by decide, by decide, by decide, by decide⟩

/-- **C2 (amended)**: each of the visa/ethnicity/race descriptions is
resolved to the early-term (WK3) value whenever that value is present
(non-missing), even when blank; the end-of-term value is used only when the
early value is missing.  A present-but-blank early value therefore resolves
to the blank early value, which the subsequent cleaning turns into empty
text — it does not fall back to the end-of-term value. -/
theorem resolveW3_prefers_present (w3v endv : Option String) :
    (w3v.isSome = true → resolveW3 w3v endv = w3v)
    ∧ (w3v = none → resolveW3 w3v endv = endv)
    ∧ (∀ s, w3v = some s → pyStrip s = "" →
        cleanUpper (resolveW3 w3v endv) = "" ∧ cleanKeep (resolveW3 w3v endv) = "") := by
  refine ⟨?_, ?_, ?_⟩
  · intro h
    rw [resolveW3, if_pos h]
  · intro h
    subst h
    rfl
  · rintro s rfl hs
    constructor
    · simp [resolveW3, cleanUpper, hs]
    · simp [resolveW3, cleanKeep, hs]

/-- Witness for the amended C2 at concrete values. -/
theorem resolveW3_prefers_present_witness :
    resolveW3 (some " ") (some "X1") = some " " ∧
    resolveW3 none (some "X1") = some "X1" ∧
    cleanUpper (resolveW3 (some " ") (some "X1")) = "" := by
  refine ⟨(resolveW3_prefers_present (some " ") (some "X1")).1 (by decide),
    (resolveW3_prefers_present none (some "X1")).2.1 rfl,
    ((resolveW3_prefers_present (some " ") (some "X1")).2.2 " " rfl (by decide)).1⟩

/-- **C3**: a grade row contributes to the per-`(id, term_code)` GPA iff its
grade (trimmed, per the code's `astype(str).str.strip()` — cf. C10) is a key
of `GRADE_POINTS`; for a key with at least one contributing row the
aggregation returns the arithmetic mean of the mapped points together with
the post-filter row count, and a key with zero contributing rows yields no
row at all (GPA missing, never 0.0). -/
theorem term_gpa_mean_correct (rows : List GradeRow) (i tc : String) :
    ((term_gpa rows i tc).isSome = true ↔
      ∃ r ∈ rows, r.id = i ∧ r.term_code = tc ∧
        (GRADE_POINTS (pyStrip r.final_course_grade)).isSome = true)
    ∧ (∀ g n, term_gpa rows i tc = some (g, n) →
        n = (contribRows rows i tc).length ∧ 0 < n ∧
        g = ((contribRows rows i tc).map gradePointsOf).sum / (n : ℚ)) := by
  have hmem : ∀ r : GradeRow, r ∈ contribRows rows i tc ↔
      (r ∈ rows ∧ r.id = i ∧ r.term_code = tc ∧
        (GRADE_POINTS (pyStrip r.final_course_grade)).isSome = true) := by
    intro r
    rw [contribRows, List.mem_filter]
    simp [contributes, and_assoc]
  constructor
  · simp only [term_gpa]
    by_cases hcs : (contribRows rows i tc).isEmpty = true
    · rw [if_pos hcs]
      simp only [Option.isSome_none, Bool.false_eq_true, false_iff]
      rintro ⟨r, hr, h1, h2, h3⟩
      have hrc : r ∈ contribRows rows i tc := (hmem r).mpr ⟨hr, h1, h2, h3⟩
      rw [List.isEmpty_iff] at hcs
      rw [hcs] at hrc
      exact absurd hrc (List.not_mem_nil r)
    · rw [if_neg hcs]
      simp only [Option.isSome_some, true_iff]
      rw [List.isEmpty_iff] at hcs
      obtain ⟨r, hr⟩ := List.exists_mem_of_ne_nil _ hcs
      obtain ⟨h1, h2⟩ := (hmem r).mp hr
      exact ⟨r, h1, h2⟩
  · intro g n h
    simp only [term_gpa] at h
    by_cases hcs : (contribRows rows i tc).isEmpty = true
    · rw [if_pos hcs] at h
      exact absurd h (by simp)
    · rw [if_neg hcs] at h
      rw [Option.some.injEq] at h
      have hg := congrArg Prod.fst h
      have hn := congrArg Prod.snd h
      simp only at hg hn
      rw [List.isEmpty_iff] at hcs
      refine ⟨hn.symm, ?_, ?_⟩
      · rw [← hn]
        exact List.length_pos.mpr hcs
      · rw [← hg, ← hn]

/-- Grade rows with two mappable grades and one unmappable grade. -/
def exC3 : List GradeRow :=
  [⟨"s", "t", "A"⟩, ⟨"s", "t", "B"⟩, ⟨"s", "t", "W"⟩]

/-- Witness for C3 at a concrete input: two contributing rows, mean 7/2. -/
theorem term_gpa_mean_witness :
    (term_gpa exC3 "s" "t").isSome = true ∧
    (2 : ℕ) = (contribRows exC3 "s" "t").length ∧
    term_gpa exC3 "s" "t" = some (7 / 2, 2) := by
  have hc : contribRows exC3 "s" "t" = [⟨"s", "t", "A"⟩, ⟨"s", "t", "B"⟩] := by decide
  have hval : term_gpa exC3 "s" "t" = some (7 / 2, 2) := by
    have hA : gradePointsOf ⟨"s", "t", "A"⟩ = 4 := by decide
    have hB : gradePointsOf ⟨"s", "t", "B"⟩ = 3 := by decide
    simp only [term_gpa, hc, List.map_cons, List.map_nil, List.sum_cons, List.sum_nil,
      hA, hB, List.isEmpty_cons]
    norm_num
  have h2 := (term_gpa_mean_correct exC3 "s" "t").2 (7 / 2) 2 hval
  exact ⟨(term_gpa_mean_correct exC3 "s" "t").1.mpr
    ⟨⟨"s", "t", "A"⟩, by decide, by decide, by decide, by decide⟩, h2.1, hval⟩

/-- **C4** counterexample: `"2022XX"` has at least six characters and a
four-digit year, and the birth date parses, so the claim says the age is
computed with the default-October reference (22 here); but the code parses
the LAST two characters with `int()`, which fails on `"XX"`, so the as-of
date is `NaT` and the age is missing, not 22.  A second gap: for
`"000010"` the claim predicts an age, but `pd.Timestamp(year=0, ...)`
raises an uncaught `ValueError`, aborting the run. -/
theorem age_nonint_suffix_counterexample :
    "2022XX".length ≥ 6 ∧ allDigits ("2022XX".data.take 4) = true ∧
    parseDate "2000-06-15" = some ⟨2000, 6, 15⟩ ∧
    _age_years parseDate (some "2000-06-15") none "2022XX" = PyResult.ok none ∧
    _age_years parseDate (some "2000-06-15") none "000010" = PyResult.raise := by
  refine ⟨by decide, by decide, by decide, by decide, by decide⟩

/-- **C4 (amended)**: for every birth date the coercing parser reads (the
early-term date when present, else the end-of-term date) and every term code
of at least six characters whose first four characters are digits, whose
last two characters parse as an integer, and whose four-digit year is at
least 1, the derived age is the reference year minus the birth year, minus
one when the reference `(month, day)` lexicographically precedes the birth
`(month, day)`; the reference date is day 1 of the month mapped from the
integer suffix (October default for unrecognized integer suffixes) in the
year of the first four characters.  Stated for every total coercing date
parser `P` (`pd.to_datetime(·, errors="coerce")`); the claim's two
round-trip examples hold. -/
theorem age_formula_correct :
    (∀ (P : String → Option Date) (dob : String) (d : Date) (e : Option String)
        (term : String) (asof : Date),
      P dob = some d → _asof_from_term term = PyResult.ok (some asof) →
      _age_years P (some dob) e term =
        PyResult.ok (some ((asof.year : Int) - (d.year : Int) -
          (if asof.month < d.month ∨ (asof.month = d.month ∧ asof.day < d.day)
           then 1 else 0))))
    ∧ (∀ (P : String → Option Date) (dob : String) (d : Date)
        (term : String) (asof : Date),
      P dob = some d → _asof_from_term term = PyResult.ok (some asof) →
      _age_years P none (some dob) term =
        PyResult.ok (some ((asof.year : Int) - (d.year : Int) -
          (if asof.month < d.month ∨ (asof.month = d.month ∧ asof.day < d.day)
           then 1 else 0))))
    ∧ (∀ (term : String) (suff : Int),
      term.length ≥ 6 → allDigits (term.data.take 4) = true →
      1 ≤ digitsToNat (term.data.take 4) →
      pyInt (lastTwo term) = some suff →
      _asof_from_term term =
        PyResult.ok (some ⟨digitsToNat (term.data.take 4), termAsofMonth suff, 1⟩))
    ∧ _age_years parseDate (some "2000-06-15") none "202210" = PyResult.ok (some 22)
    ∧ _age_years parseDate (some "2000-06-15") none "202220" = PyResult.ok (some 21) := by
  refine ⟨?_, ?_, ?_, by decide, by decide⟩
  · intro P dob d e term asof hd hasof
    simp only [_age_years, hasof, Option.isSome_some, if_true, Option.some_bind, hd]
    by_cases hlt : asof.month < d.month ∨ (asof.month = d.month ∧ asof.day < d.day)
    · rw [if_pos hlt, if_pos hlt]
    · rw [if_neg hlt, if_neg hlt]
      simp
  · intro P dob d term asof hd hasof
    simp only [_age_years, hasof, Option.isSome_none, Bool.false_eq_true, if_false,
      Option.some_bind, hd]
    by_cases hlt : asof.month < d.month ∨ (asof.month = d.month ∧ asof.day < d.day)
    · rw [if_pos hlt, if_pos hlt]
    · rw [if_neg hlt, if_neg hlt]
      simp
  · intro term suff h6 hall hy hsuff
    have hdig := allDigits_pyIsdigit _ hall
    simp only [_asof_from_term]
    rw [if_pos ⟨h6, hdig⟩, if_pos hall, hsuff]
    simp [hy]

/-- Witness for the amended C4 at the claim's concrete examples, covering
both the early-term-present and the end-of-term-fallback paths. -/
theorem age_formula_witness :
    _asof_from_term "202210" = PyResult.ok (some ⟨2022, 10, 1⟩) ∧
    _age_years parseDate (some "2000-06-15") none "202210" = PyResult.ok (some 22) ∧
    _age_years parseDate none (some "2000-06-15") "202220" = PyResult.ok (some 21) := by
  have h1 := age_formula_correct.2.2.1 "202210" 10 (by decide) (by decide) (by decide)
    (by decide)
  have h2 := age_formula_correct.1 parseDate "2000-06-15" ⟨2000, 6, 15⟩ none "202210"
    ⟨2022, 10, 1⟩ (by decide) (by decide)
  have h3 := age_formula_correct.2.1 parseDate "2000-06-15" ⟨2000, 6, 15⟩ "202220"
    ⟨2022, 3, 1⟩ (by decide) (by decide)
  refine ⟨?_, ?_, ?_⟩
  · rw [h1]
    decide
  · rw [h2]
    decide
  · rw [h3]
    decide

/-- **C5**: `enrolled_w3`/`enrolled_end` hold iff at least one of that
snapshot's major/degree/college is present; `persisted_w3_to_end` is their
conjunction; `undeclared_to_declared` holds iff persisted AND the uppercased
early major (missing read as empty) starts with `"UN"` AND the uppercased
end major does not; in particular it is false whenever persistence fails. -/
theorem enrollment_flags_correct (r : STRow) :
    (enrolled_w3 r = true ↔
      (r.majr_w3.isSome = true ∨ r.degr_w3.isSome = true ∨ r.college_w3.isSome = true))
    ∧ (enrolled_end r = true ↔
      (r.majr_end.isSome = true ∨ r.degr_end.isSome = true ∨ r.college_end.isSome = true))
    ∧ persisted_w3_to_end r = (enrolled_w3 r && enrolled_end r)
    ∧ (undeclared_to_declared r = true ↔
      (persisted_w3_to_end r = true ∧
        pyStartsWith (pyUpper (r.majr_w3.getD "")) "UN" = true ∧
        pyStartsWith (pyUpper (r.majr_end.getD "")) "UN" = false))
    ∧ (persisted_w3_to_end r = false → undeclared_to_declared r = false) := by
  refine ⟨?_, ?_, rfl, ?_, ?_⟩
  · simp [enrolled_w3, or_assoc]
  · simp [enrolled_end, or_assoc]
  · simp [undeclared_to_declared, startsUN, and_assoc]
  · intro h
    simp [undeclared_to_declared, h]

/-- Merged row enrolled only at WK3, with an undeclared early major. -/
def exC5 : STRow :=
  mkMerged ("S4", "202110")
    (some ⟨some "WK3", "S4", "202110", some "UNDECLARED", none, none, none,
      none, none, none, none, none⟩)
    none

/-- Witness for C5 at a concrete row: enrolled early, but not persisted, so
never declared-late despite the `"UN"` major. -/
theorem enrollment_flags_witness :
    enrolled_w3 exC5 = true ∧ undeclared_to_declared exC5 = false := by
  refine ⟨(enrollment_flags_correct exC5).1.mpr (Or.inl (by decide)), ?_⟩
  exact (enrollment_flags_correct exC5).2.2.2.2 (by decide)

/-- The spec's end-to-end scenario input: one WK3 row (major UNDECIDED,
college ARTS) and one EOT row (major BIOLOGY, college ARTS) for the same
student-term. -/
def scenarioInput : List CensusRow :=
  [⟨some "WK3", "S1", "202310", some "UNDECIDED", some "BA", some "ARTS",
     none, none, none, none, none, none⟩,
   ⟨some "EOT", "S1", "202310", some "BIOLOGY", some "BA", some "ARTS",
     none, none, none, none, none, none⟩]

/-- **C6**: program/degree/major/college resolve to the end-of-term value
exactly when `enrolled_end` holds (else the early value), and gender to the
end legal sex exactly when present (else the early value); the spec's
end-to-end scenario yields one merged row with `persisted`, `declared_late`,
major BIOLOGY and college ARTS. -/
theorem attribute_resolution_correct :
    (∀ r : STRow,
      (enrolled_end r = true →
        resolvedPROGRAM r = r.PROGRAM_end ∧ resolvedDegree r = r.degr_end ∧
        resolvedMajor r = r.majr_end ∧ resolvedCollege r = r.college_end)
      ∧ (enrolled_end r = false →
        resolvedPROGRAM r = r.PROGRAM_w3 ∧ resolvedDegree r = r.degr_w3 ∧
        resolvedMajor r = r.majr_w3 ∧ resolvedCollege r = r.college_w3)
      ∧ (r.legal_sex_desc_end.isSome = true → resolvedGender r = r.legal_sex_desc_end)
      ∧ (r.legal_sex_desc_end = none → resolvedGender r = r.legal_sex_desc_w3))
    ∧ (student_term scenarioInput).length = 1
    ∧ (∀ m ∈ student_term scenarioInput,
        persisted_w3_to_end m = true ∧ undeclared_to_declared m = true ∧
        resolvedMajor m = some "BIOLOGY" ∧ resolvedCollege m = some "ARTS") := by
  refine ⟨?_, by decide, by decide⟩
  intro r
  refine ⟨fun h => ?_, fun h => ?_, fun h => ?_, fun h => ?_⟩
  · simp [resolvedPROGRAM, resolvedDegree, resolvedMajor, resolvedCollege, h]
  · simp [resolvedPROGRAM, resolvedDegree, resolvedMajor, resolvedCollege, h]
  · simp [resolvedGender, h]
  · simp [resolvedGender, h]

/-- The merged row the pipeline produces for the scenario input. -/
def exC6m : STRow :=
  mkMerged ("S1", "202310")
    (some ⟨some "WK3", "S1", "202310", some "UNDECIDED", some "BA", some "ARTS",
      none, none, none, none, none, none⟩)
    (some ⟨some "EOT", "S1", "202310", some "BIOLOGY", some "BA", some "ARTS",
      none, none, none, none, none, none⟩)

/-- Witness for C6: the scenario's merged row is flagged persisted and
declared-late, with end-preferred major and college. -/
theorem attribute_resolution_witness :
    persisted_w3_to_end exC6m = true ∧ undeclared_to_declared exC6m = true ∧
    resolvedMajor exC6m = some "BIOLOGY" ∧ resolvedCollege exC6m = some "ARTS" :=
  attribute_resolution_correct.2.2 exC6m (by decide)

/-- **C8** counterexample: the age derivation is NOT exception-free for
arbitrary term codes.  `"000010"` passes the guard and the suffix parse, but
`pd.Timestamp(year=0, month=10, day=1)` — outside the `try` — raises an
uncaught `ValueError` that aborts the run; `"20\u00b2210"` passes the Unicode
`str.isdigit` guard, but `int("20\u00b22")` — also outside the `try` —
raises an uncaught `ValueError`. -/
theorem age_abort_counterexample :
    _asof_from_term "000010" = PyResult.raise ∧
    _age_years parseDate (some "2000-06-15") none "000010" = PyResult.raise ∧
    ("20²210".data.take 4).all pyIsdigitChar = true ∧
    allDigits ("20²210".data.take 4) = false ∧
    _asof_from_term "20²210" = PyResult.raise ∧
    _age_years parseDate (some "2000-06-15") none "20²210" = PyResult.raise := by
  refine ⟨by decide, by decide, by decide, by decide, by decide, by decide⟩

/-- **C8 (amended)**: whenever the chosen birth date fails to parse (for any
total coercing parser `P` standing for `pd.to_datetime(·, errors="coerce")`)
or the term code fails its guard (shorter than six characters, or a first
character block that is not all digit characters) or its last-two-character
`int()` parse, the derived age is missing — `PyResult.ok none`, never zero;
but not for ANY string contents: the run aborts with an uncaught exception
exactly when the term code passes the `isdigit` guard and either its first
four characters are not ASCII digits (`int(s[:4])` raises) or they denote
year 0000 while the suffix parses (`pd.Timestamp` raises). -/
theorem age_missing_on_parse_failure :
    (∀ (P : String → Option Date) (dob_w3 dob_end : Option String) (term : String),
      (if dob_w3.isSome then dob_w3 else dob_end).bind P = none →
      ∀ x, _asof_from_term term = PyResult.ok x →
      _age_years P dob_w3 dob_end term = PyResult.ok none)
    ∧ (∀ (P : String → Option Date) (dob_w3 dob_end : Option String) (term : String),
      _asof_from_term term = PyResult.ok none →
      _age_years P dob_w3 dob_end term = PyResult.ok none)
    ∧ (∀ term : String, term.length < 6 → _asof_from_term term = PyResult.ok none)
    ∧ (∀ term : String, ¬ (term.data.take 4).all pyIsdigitChar = true →
        _asof_from_term term = PyResult.ok none)
    ∧ (∀ term : String, allDigits (term.data.take 4) = true →
        pyInt (lastTwo term) = none → _asof_from_term term = PyResult.ok none)
    ∧ (∀ term : String, _asof_from_term term = PyResult.raise ↔
        (term.length ≥ 6 ∧ (term.data.take 4).all pyIsdigitChar = true ∧
          (allDigits (term.data.take 4) = false ∨
            (digitsToNat (term.data.take 4) = 0 ∧
              (pyInt (lastTwo term)).isSome = true)))) := by
  refine ⟨?_, ?_, ?_, ?_, ?_, ?_⟩
  · intro P w e term h x hx
    simp only [_age_years, hx, h]
  · intro P w e term h
    simp only [_age_years, h]
    cases (if w.isSome then w else e).bind P <;> rfl
  · intro term h
    simp only [_asof_from_term]
    rw [if_neg]
    rintro ⟨h6, -⟩
    omega
  · intro term h
    simp only [_asof_from_term]
    rw [if_neg]
    rintro ⟨-, hd⟩
    exact h hd
  · intro term hall hsuff
    simp only [_asof_from_term]
    by_cases h6 : term.length ≥ 6 ∧ (term.data.take 4).all pyIsdigitChar
    · rw [if_pos h6, if_pos hall, hsuff]
    · rw [if_neg h6]
  · intro term
    simp only [_asof_from_term]
    by_cases hg : term.length ≥ 6 ∧ (term.data.take 4).all pyIsdigitChar
    · rw [if_pos hg]
      by_cases hall : allDigits (term.data.take 4) = true
      · rw [if_pos hall]
        cases hsf : pyInt (lastTwo term) with
        | none =>
          constructor
          · intro hf
            exact PyResult.noConfusion hf
          · rintro ⟨-, -, h | ⟨-, h⟩⟩
            · rw [hall] at h
              exact Bool.noConfusion h
            · exact Bool.noConfusion h
        | some suff =>
          show (if 1 ≤ digitsToNat (term.data.take 4) then
              PyResult.ok (some (Date.mk (digitsToNat (term.data.take 4))
                (termAsofMonth suff) 1))
            else PyResult.raise) = PyResult.raise ↔
            (term.length ≥ 6 ∧ (term.data.take 4).all pyIsdigitChar = true ∧
              (allDigits (term.data.take 4) = false ∨
                (digitsToNat (term.data.take 4) = 0 ∧
                  (some suff : Option Int).isSome = true)))
          by_cases hy : 1 ≤ digitsToNat (term.data.take 4)
          · rw [if_pos hy]
            constructor
            · intro hf
              exact PyResult.noConfusion hf
            · rintro ⟨-, -, h | ⟨h0, -⟩⟩
              · rw [hall] at h
                exact Bool.noConfusion h
              · omega
          · rw [if_neg hy]
            refine ⟨fun _ => ⟨hg.1, hg.2, Or.inr ⟨by omega, rfl⟩⟩, fun _ => rfl⟩
      · rw [if_neg hall]
        refine ⟨fun _ => ⟨hg.1, hg.2, Or.inl ?_⟩, fun _ => rfl⟩
        cases hb : allDigits (term.data.take 4) with
        | false => rfl
        | true => exact absurd hb hall
    · rw [if_neg hg]
      constructor
      · intro hf
        exact PyResult.noConfusion hf
      · rintro ⟨h1, h2, -⟩
        exact absurd ⟨h1, h2⟩ hg

/-- Witness for the amended C8 at concrete inputs: malformed birth date or
term code gives a missing age; `"000010"` aborts. -/
theorem age_missing_witness :
    _age_years parseDate (some "not-a-date") none "202210" = PyResult.ok none ∧
    _asof_from_term "2022" = PyResult.ok none ∧
    _asof_from_term "YYYY10" = PyResult.ok none ∧
    _asof_from_term "2022XY" = PyResult.ok none ∧
    _age_years parseDate (some "2000-06-15") none "2022XY" = PyResult.ok none ∧
    _asof_from_term "000010" = PyResult.raise := by
  refine ⟨age_missing_on_parse_failure.1 parseDate _ _ _ (by decide)
      (some ⟨2022, 10, 1⟩) (by decide),
    age_missing_on_parse_failure.2.2.1 "2022" (by decide),
    age_missing_on_parse_failure.2.2.2.1 "YYYY10" (by decide),
    age_missing_on_parse_failure.2.2.2.2.1 "2022XY" (by decide) (by decide),
    age_missing_on_parse_failure.2.1 parseDate _ _ "2022XY"
      (age_missing_on_parse_failure.2.2.2.2.1 "2022XY" (by decide) (by decide)),
    (age_missing_on_parse_failure.2.2.2.2.2 "000010").mpr (by decide)⟩

/-- **C10**: grades are trimmed before the `GRADE_POINTS` lookup, so a row
whose grade matches a key after trimming (e.g. `" A "`) still contributes its
points to `term_gpa` and to the post-filter course count — surrounding
whitespace alone never excludes a row. -/
theorem trimmed_grade_contributes (rows : List GradeRow) (r : GradeRow) (p : ℚ)
    (hmem : r ∈ rows) (hp : GRADE_POINTS (pyStrip r.final_course_grade) = some p) :
    r ∈ contribRows rows r.id r.term_code ∧
    (term_gpa rows r.id r.term_code).isSome = true := by
  have hc : r ∈ contribRows rows r.id r.term_code := by
    rw [contribRows, List.mem_filter]
    refine ⟨hmem, ?_⟩
    simp [contributes, hp]
  refine ⟨hc, ?_⟩
  simp only [term_gpa]
  have hne : ¬ ((contribRows rows r.id r.term_code).isEmpty = true) := by
    intro hemp
    rw [List.isEmpty_iff] at hemp
    rw [hemp] at hc
    exact absurd hc (List.not_mem_nil r)
  rw [if_neg hne]
  rfl

/-- One grade row whose grade carries surrounding whitespace. -/
def exC10 : List GradeRow := [⟨"s", "t", " A "⟩]

/-- Witness for C10: the row `" A "` contributes, giving GPA 4 over one
course. -/
theorem trimmed_grade_witness :
    (⟨"s", "t", " A "⟩ : GradeRow) ∈ contribRows exC10 "s" "t" ∧
    (term_gpa exC10 "s" "t").isSome = true ∧
    term_gpa exC10 "s" "t" = some (4, 1) := by
  have hstrip : pyStrip " A " = "A" := by decide
  have hp : GRADE_POINTS (pyStrip " A ") = some 4 := by
    rw [hstrip]
    simp [GRADE_POINTS]
  have h := trimmed_grade_contributes exC10 ⟨"s", "t", " A "⟩ 4 (by decide) hp
  have hc : contribRows exC10 "s" "t" = [⟨"s", "t", " A "⟩] := by decide
  have h4 : gradePointsOf ⟨"s", "t", " A "⟩ = 4 := by decide
  refine ⟨h.1, h.2, ?_⟩
  simp only [term_gpa, hc, List.map_cons, List.map_nil, List.sum_cons, List.sum_nil,
    h4, List.isEmpty_cons]
  norm_num

end DUClean
